import Mathlib

/-!
# 3D-Calculator: the calculator state machine of `src/main.js`

A shallow embedding of the arithmetic core of `src/main.js`
(`handleNumber`, `handleOperator`, `performCalculation`, `handleDelete` and the
dispatch shared by `onButtonClick` and `handleKeyPress`), followed by theorems
about it.

The global objects `currentOperation` and `calculatorScreen` become one record
that is passed explicitly.  Rendering (`updateScreen`, `pressButton`) has no
effect on these fields and is left out.

JavaScript numbers are IEEE doubles.  The embedding tracks exactly the doubles
whose value is an integer of magnitude below `2^53`: on these `+`, `-`, `*`
and exact `/` are computed without rounding, `+0` and `-0` print alike and
compare alike with `0`, and `toString` prints the decimal numeral.  Every other
double (a fraction, `NaN`, an infinity, a rounded value) is outside the tracked
range; a computation that needs one yields `none`.
-/

namespace Calculator

/-- The mutable state of the program: the four fields of `currentOperation`
(`main.js` line 69) and `calculatorScreen.context` (line 5), the text shown on
the screen. -/
structure State where
  operand1 : String
  operand2 : String
  operator : String
  result : String
  context : String
deriving DecidableEq

/-- The state at start-up: `currentOperation` and `calculatorScreen.context`
are created with empty strings. -/
def init : State :=
  { operand1 := "", operand2 := "", operator := "", result := "", context := "" }

/-- JavaScript truthiness of a string: every string except the empty one. -/
def truthy (s : String) : Bool := s != ""

/-- The string method call `s.slice(0, -1)`: the string without its last character.
The strings this program builds hold ASCII characters only, for which a
character and a UTF-16 code unit are the same thing. -/
def slice0m1 (s : String) : String := ⟨s.data.dropLast⟩

/-- A non-empty list of decimal digit characters. -/
def isDigits (cs : List Char) : Bool := !cs.isEmpty && cs.all Char.isDigit

/-- The number a list of decimal digits denotes, most significant digit first. -/
def decimalValue (cs : List Char) : Nat :=
  cs.foldl (fun acc c => 10 * acc + (c.toNat - 48)) 0

/-- The tracked range of doubles: integers of magnitude below `2^53`. -/
def safeInt (z : Int) : Option Int :=
  if z.natAbs < 2 ^ 53 then some z else none

/-- The global function `parseFloat` on the strings the embedding tracks: a run of decimal
digits, possibly after one `-`, whose value is below `2^53` in magnitude.  On
any other string the result is outside the tracked range (`none`). -/
def parseFloat (s : String) : Option Int :=
  match s.data with
  | '-' :: ds => if isDigits ds then safeInt (-(decimalValue ds : Int)) else none
  | ds => if isDigits ds then safeInt (decimalValue ds) else none

/-- The method `Number.prototype.toString` on a tracked double: the decimal numeral,
with a leading `-` for a negative value. -/
def numberToString (z : Int) : String :=
  if z < 0 then "-" ++ Nat.repr z.natAbs else Nat.repr z.natAbs

/-- The local variable `result` of `performCalculation`: a number, or the
string `"Error"`. -/
inductive CalcResult where
  | num (z : Int)
  | error
deriving DecidableEq

/-- The text `result.toString()`. -/
def CalcResult.toString : CalcResult → String
  | .num z => numberToString z
  | .error => "Error"

/-- The `switch` of `performCalculation` (lines 264-280) on the parsed operands.
`none` means the value leaves the tracked range of doubles. -/
def calculate (operator : String) (num1 num2 : Option Int) : Option CalcResult :=
  if operator = "+" then
    match num1, num2 with
    | some a, some b => (safeInt (a + b)).map CalcResult.num
    | _, _ => none
  else if operator = "-" then
    match num1, num2 with
    | some a, some b => (safeInt (a - b)).map CalcResult.num
    | _, _ => none
  else if operator = "*" then
    match num1, num2 with
    | some a, some b => (safeInt (a * b)).map CalcResult.num
    | _, _ => none
  else if operator = "/" then
    match num2 with
    | none => none
    | some b =>
      if b ≠ 0 then
        match num1 with
        | some a => if b ∣ a then some (CalcResult.num (a / b)) else none
        | none => none
      else some CalcResult.error
  else some CalcResult.error

/-- The function `performCalculation` (lines 259-295). -/
def performCalculation (s : State) : Option State :=
  let num1 := parseFloat s.operand1
  let num2 := parseFloat s.operand2
  match calculate s.operator num1 num2 with
  | none => none
  | some result =>
    let s1 : State :=
      if result ≠ CalcResult.error then
        { s with operand1 := result.toString, result := result.toString }
      else
        { s with operand1 := "" }
    some { s1 with operand2 := "", operator := "", context := result.toString }

/-- The function `handleNumber` (lines 235-242). -/
def handleNumber (value : String) (s : State) : State :=
  let s1 := { s with context := s.context ++ value }
  if truthy s1.operator then
    { s1 with operand2 := s1.operand2 ++ value }
  else
    { s1 with operand1 := s1.operand1 ++ value }

/-- The function `handleOperator` (lines 244-257). -/
def handleOperator (operator : String) (s : State) : Option State :=
  if operator = "=" ∧ truthy s.operand1 ∧ truthy s.operator ∧ truthy s.operand2 then
    performCalculation s
  else if !truthy s.operator ∨ (truthy s.operator ∧ !truthy s.operand2) then
    some { s with operator := operator, context := s.context ++ operator }
  else if truthy s.operator ∧ truthy s.operand1 ∧ truthy s.operand2 then
    (performCalculation s).map fun s1 =>
      { s1 with operator := operator, context := s1.result ++ operator }
  else
    some s

/-- The function `handleDelete` (lines 298-309). -/
def handleDelete (s : State) : State :=
  let s1 : State :=
    if truthy s.operand2 then
      { s with operand2 := slice0m1 s.operand2 }
    else if truthy s.operator then
      { s with operator := "" }
    else if truthy s.operand1 then
      { s with operand1 := slice0m1 s.operand1 }
    else s
  { s1 with context := s1.operand1 ++ s1.operator ++ s1.operand2 }

/-- The values of the sixteen buttons made by `createCalculator` (lines 130-135). -/
def buttonValues : List String :=
  ["7", "8", "9", "+", "4", "5", "6", "-", "1", "2", "3", "*", "0", "DEL", "=", "/"]

/-- The values of the ten digit buttons: the button values `v` with `!isNaN(v)`. -/
def digitValues : List String :=
  ["0", "1", "2", "3", "4", "5", "6", "7", "8", "9"]

/-- The dispatch shared by `onButtonClick` (lines 211-224) and `handleKeyPress`
(lines 168-179): a value with no button is ignored, `DEL` deletes, a numeric
value is a digit, everything else is an operator. -/
def press (value : String) (s : State) : Option State :=
  if value ∈ buttonValues then
    if value = "DEL" then some (handleDelete s)
    else if value ∈ digitValues then some (handleNumber value s)
    else handleOperator value s
  else some s

/-- A sequence of button presses, in order. -/
def run : List String → State → Option State
  | [], s => some s
  | v :: vs, s => (press v s).bind (run vs)

/-- The states the user can bring about: those reached from `init` by pressing buttons. -/
def Reachable (s : State) : Prop :=
  ∃ vs : List String, (∀ v ∈ vs, v ∈ buttonValues) ∧ run vs init = some s

/-- The strings of a list, joined in order. -/
def concat (vs : List String) : String := vs.foldr (fun v acc => v ++ acc) ""

/-- The digit tokens that type a string, one per character. -/
def tokens (x : String) : List String := x.data.map String.singleton

/-- The arithmetic meaning of an operator symbol on integers (`/` is exact division). -/
def applyOp (operator : String) (a b : Int) : Int :=
  if operator = "+" then a + b
  else if operator = "-" then a - b
  else if operator = "*" then a * b
  else a / b

/-- A decimal integer string: a non-empty run of digits, possibly after one `-`. -/
def isDecimalInteger (x : String) : Bool :=
  match x.data with
  | '-' :: ds => isDigits ds
  | ds => isDigits ds

/-- The integer a decimal integer string denotes. -/
def integerValue (x : String) : Int :=
  match x.data with
  | '-' :: ds => -(decimalValue ds : Int)
  | ds => (decimalValue ds : Int)

/-! ## Decimal numerals: printing and parsing agree -/

theorem truthy_iff (s : String) : truthy s = true ↔ s ≠ "" := by
  simp [truthy]

theorem digitChar_toNat (k : Nat) (h : k < 10) :
    (Nat.digitChar k).toNat - 48 = k ∧ (Nat.digitChar k).isDigit = true := by
  interval_cases k <;> decide

theorem decimalValue_snoc (cs : List Char) (c : Char) :
    decimalValue (cs ++ [c]) = 10 * decimalValue cs + (c.toNat - 48) := by
  simp [decimalValue, List.foldl_append]

theorem toDigitsCore_spec : ∀ (fuel n : Nat) (ds : List Char), n < fuel →
    ∃ pre : List Char, Nat.toDigitsCore 10 fuel n ds = pre ++ ds ∧ pre ≠ [] ∧
      pre.all Char.isDigit = true ∧ decimalValue pre = n := by
  intro fuel
  induction fuel with
  | zero => intro n ds h; omega
  | succ fuel ih =>
    intro n ds h
    have hd := digitChar_toNat (n % 10) (Nat.mod_lt _ (by norm_num))
    by_cases h0 : n / 10 = 0
    · refine ⟨[Nat.digitChar (n % 10)], ?_, by simp, ?_, ?_⟩
      · simp [Nat.toDigitsCore, h0]
      · simp [hd.2]
      · simp only [decimalValue, List.foldl, hd.1]
        omega
    · obtain ⟨pre, hpre, hne, hall, hval⟩ :=
        ih (n / 10) (Nat.digitChar (n % 10) :: ds) (by omega)
      refine ⟨pre ++ [Nat.digitChar (n % 10)], ?_, by simp, ?_, ?_⟩
      · simp [Nat.toDigitsCore, h0, hpre]
      · simp [List.all_append, hall, hd.2]
      · rw [decimalValue_snoc, hval, hd.1]
        omega

theorem repr_digits (n : Nat) :
    (Nat.repr n).data ≠ [] ∧ (Nat.repr n).data.all Char.isDigit = true ∧
      decimalValue (Nat.repr n).data = n := by
  obtain ⟨pre, hpre, hne, hall, hval⟩ := toDigitsCore_spec (n + 1) n [] (by omega)
  have : (Nat.repr n).data = pre := by
    simp [Nat.repr, Nat.toDigits, hpre, List.asString]
  rw [this]
  exact ⟨hne, hall, hval⟩

theorem parseFloat_eq (x : String) (h : isDecimalInteger x = true)
    (hb : (integerValue x).natAbs < 2 ^ 53) : parseFloat x = some (integerValue x) := by
  unfold parseFloat
  unfold isDecimalInteger at h
  unfold integerValue at hb ⊢
  split <;> simp_all [safeInt]

theorem isDigits_not_minus (cs : List Char) (h : isDigits cs = true) :
    ∀ ds, cs = '-' :: ds → False := by
  intro ds hds
  subst hds
  simp [isDigits] at h

theorem digits_isDecimalInteger (x : String) (h : isDigits x.data = true) :
    isDecimalInteger x = true ∧ integerValue x = (decimalValue x.data : Int) ∧
      truthy x = true := by
  have hm := isDigits_not_minus x.data h
  refine ⟨?_, ?_, ?_⟩
  · unfold isDecimalInteger
    split
    · next ds hds => exact (hm ds hds).elim
    · exact h
  · unfold integerValue
    split
    · next ds hds => exact (hm ds hds).elim
    · rfl
  · rw [truthy_iff]
    intro he
    subst he
    simp [isDigits] at h

theorem repr_isDigits (n : Nat) : isDigits (Nat.repr n).data = true := by
  have := repr_digits n
  simp [isDigits, this.1, this.2.1]

theorem numberToString_spec (z : Int) :
    isDecimalInteger (numberToString z) = true ∧ integerValue (numberToString z) = z ∧
      truthy (numberToString z) = true := by
  unfold numberToString
  by_cases hz : z < 0
  · simp only [hz, if_true]
    have hd : ("-" ++ Nat.repr z.natAbs).data = '-' :: (Nat.repr z.natAbs).data := by
      simp [String.data_append]
    refine ⟨?_, ?_, ?_⟩
    · simp only [isDecimalInteger, hd]
      exact repr_isDigits _
    · simp only [integerValue, hd, (repr_digits _).2.2]
      omega
    · rw [truthy_iff]
      intro he
      rw [he] at hd
      simp at hd
  · simp only [hz, if_false]
    obtain ⟨h1, h2, h3⟩ := digits_isDecimalInteger _ (repr_isDigits z.natAbs)
    refine ⟨h1, ?_, h3⟩
    rw [h2, (repr_digits _).2.2]
    omega

theorem parseFloat_numberToString (z : Int) (h : z.natAbs < 2 ^ 53) :
    parseFloat (numberToString z) = some z := by
  obtain ⟨h1, h2, _⟩ := numberToString_spec z
  have := parseFloat_eq (numberToString z) h1 (by rw [h2]; exact h)
  rw [this, h2]

/-! ## Evaluation -/

theorem calculate_ok (op : String) (a b : Int) (hop : op ∈ ["+", "-", "*", "/"])
    (hdiv : op = "/" → b ≠ 0 ∧ b ∣ a) (hr : (applyOp op a b).natAbs < 2 ^ 53) :
    calculate op (some a) (some b) = some (CalcResult.num (applyOp op a b)) := by
  simp only [List.mem_cons, List.mem_singleton, List.not_mem_nil, or_false] at hop
  rcases hop with h | h | h | h <;> subst h
  · simp [calculate, applyOp, safeInt] at hr ⊢
    exact hr
  · simp [calculate, applyOp, safeInt] at hr ⊢
    exact hr
  · simp [calculate, applyOp, safeInt] at hr ⊢
    exact hr
  · obtain ⟨h0, hd⟩ := hdiv rfl
    simp [calculate, applyOp, h0, hd]

theorem performCalculation_ok (s : State)
    (h1 : isDecimalInteger s.operand1 = true) (h2 : isDigits s.operand2.data = true)
    (hop : s.operator ∈ ["+", "-", "*", "/"])
    (hdiv : s.operator = "/" →
      integerValue s.operand2 ≠ 0 ∧ integerValue s.operand2 ∣ integerValue s.operand1)
    (hb1 : (integerValue s.operand1).natAbs < 2 ^ 53)
    (hb2 : (integerValue s.operand2).natAbs < 2 ^ 53)
    (hr : (applyOp s.operator (integerValue s.operand1) (integerValue s.operand2)).natAbs
      < 2 ^ 53) :
    performCalculation s =
      some { operand1 := numberToString
               (applyOp s.operator (integerValue s.operand1) (integerValue s.operand2)),
             operand2 := "", operator := "",
             result := numberToString
               (applyOp s.operator (integerValue s.operand1) (integerValue s.operand2)),
             context := numberToString
               (applyOp s.operator (integerValue s.operand1) (integerValue s.operand2)) } := by
  have p1 := parseFloat_eq s.operand1 h1 hb1
  have p2 := parseFloat_eq s.operand2 (digits_isDecimalInteger _ h2).1 hb2
  simp [performCalculation, p1, p2, calculate_ok s.operator _ _ hop hdiv hr,
    CalcResult.toString]

theorem handleOperator_equals_tracked (s : State)
    (h1 : isDecimalInteger s.operand1 = true) (h2 : isDigits s.operand2.data = true)
    (hop : s.operator ∈ ["+", "-", "*", "/"])
    (hdiv : s.operator = "/" →
      integerValue s.operand2 ≠ 0 ∧ integerValue s.operand2 ∣ integerValue s.operand1)
    (hb1 : (integerValue s.operand1).natAbs < 2 ^ 53)
    (hb2 : (integerValue s.operand2).natAbs < 2 ^ 53)
    (hr : (applyOp s.operator (integerValue s.operand1) (integerValue s.operand2)).natAbs
      < 2 ^ 53) :
    handleOperator "=" s =
      some { operand1 := numberToString
               (applyOp s.operator (integerValue s.operand1) (integerValue s.operand2)),
             operand2 := "", operator := "",
             result := numberToString
               (applyOp s.operator (integerValue s.operand1) (integerValue s.operand2)),
             context := numberToString
               (applyOp s.operator (integerValue s.operand1) (integerValue s.operand2)) } := by
  have t1 : truthy s.operand1 = true := by
    rw [truthy_iff]
    intro he
    rw [he] at h1
    simp [isDecimalInteger, isDigits] at h1
  have t2 := (digits_isDecimalInteger _ h2).2.2
  have t3 : truthy s.operator = true := by
    rw [truthy_iff]
    intro he
    rw [he] at hop
    simp at hop
  rw [← performCalculation_ok s h1 h2 hop hdiv hb1 hb2 hr]
  simp [handleOperator, t1, t2, t3]

/-- C1. Evaluation on `=`: when `operand1` is a decimal integer string, the
operator is one of `+ - * /` (for `/`, `operand2` is non-zero and divides
`operand1`), `operand2` is a non-empty digit string, and the operands and the
result are below `2^53` in magnitude, `handleOperator "="` returns the state
whose `operand1`, `result` and display are the decimal numeral of
`operand1 operator operand2`, with `operand2` and `operator` empty. -/
theorem handleOperator_eq_evaluates (s : State)
    (h1 : isDecimalInteger s.operand1 = true) (h2 : isDigits s.operand2.data = true)
    (hop : s.operator ∈ ["+", "-", "*", "/"])
    (hdiv : s.operator = "/" →
      integerValue s.operand2 ≠ 0 ∧ integerValue s.operand2 ∣ integerValue s.operand1)
    (hb1 : (integerValue s.operand1).natAbs < 2 ^ 53)
    (hb2 : (integerValue s.operand2).natAbs < 2 ^ 53)
    (hr : (applyOp s.operator (integerValue s.operand1) (integerValue s.operand2)).natAbs
      < 2 ^ 53) :
    handleOperator "=" s =
      some { operand1 := numberToString
               (applyOp s.operator (integerValue s.operand1) (integerValue s.operand2)),
             operand2 := "", operator := "",
             result := numberToString
               (applyOp s.operator (integerValue s.operand1) (integerValue s.operand2)),
             context := numberToString
               (applyOp s.operator (integerValue s.operand1) (integerValue s.operand2)) } :=
  handleOperator_equals_tracked s h1 h2 hop hdiv hb1 hb2 hr

/-! ## Digit entry -/

theorem concat_cons (v : String) (vs : List String) : concat (v :: vs) = v ++ concat vs := rfl

theorem foldl_handleNumber_operand1 (ds : List String) : ∀ (s : State), s.operator = "" →
    ds.foldl (fun st d => handleNumber d st) s =
      { s with operand1 := s.operand1 ++ concat ds, context := s.context ++ concat ds } := by
  induction ds with
  | nil => intro s _; simp [concat]
  | cons d ds ih =>
    intro s h
    rw [List.foldl_cons, ih _ (by simp [handleNumber, truthy, h])]
    simp [handleNumber, truthy, h, concat_cons, String.append_assoc]

theorem foldl_handleNumber_operand2 (ds : List String) : ∀ (s : State), s.operator ≠ "" →
    ds.foldl (fun st d => handleNumber d st) s =
      { s with operand2 := s.operand2 ++ concat ds, context := s.context ++ concat ds } := by
  induction ds with
  | nil => intro s _; simp [concat]
  | cons d ds ih =>
    intro s h
    rw [List.foldl_cons, ih _ (by simp [handleNumber, truthy, h])]
    simp [handleNumber, truthy, h, concat_cons, String.append_assoc]

theorem digitValues_press (d : String) (h : d ∈ digitValues) (s : State) :
    press d s = some (handleNumber d s) := by
  simp only [digitValues, List.mem_cons, List.mem_singleton, List.not_mem_nil, or_false] at h
  rcases h with h | h | h | h | h | h | h | h | h | h <;> subst h <;>
    simp [press, buttonValues, digitValues]

theorem run_digits (ds : List String) (h : ∀ d ∈ ds, d ∈ digitValues) : ∀ (s : State),
    run ds s = some (ds.foldl (fun st d => handleNumber d st) s) := by
  induction ds with
  | nil => intro s; rfl
  | cons d ds ih =>
    intro s
    simp only [run, List.foldl_cons]
    rw [digitValues_press d (h d (List.mem_cons_self _ _))]
    exact ih (fun x hx => h x (List.mem_cons_of_mem _ hx)) _

/-- C8. Digit entry before any operator: from the initial state, calling
`handleNumber` on digit tokens `d1..dn` in order leaves `operand1` and the
display equal to the concatenation `d1..dn`, and `operand2`, `operator` and
`result` empty. -/
theorem digits_before_operator (ds : List String) (h : ∀ d ∈ ds, d ∈ digitValues) :
    ds.foldl (fun st d => handleNumber d st) init =
        { operand1 := concat ds, operand2 := "", operator := "", result := "",
          context := concat ds } ∧
      run ds init =
        some { operand1 := concat ds, operand2 := "", operator := "", result := "",
               context := concat ds } := by
  have hfold : ds.foldl (fun st d => handleNumber d st) init =
      { operand1 := concat ds, operand2 := "", operator := "", result := "",
        context := concat ds } := by
    rw [foldl_handleNumber_operand1 ds init rfl]
    simp [init]
  exact ⟨hfold, by rw [run_digits ds h init, hfold]⟩

theorem digits_before_operator_witness :
    ["1", "2", "0"].foldl (fun st d => handleNumber d st) init =
      { operand1 := "120", operand2 := "", operator := "", result := "", context := "120" } :=
  (digits_before_operator ["1", "2", "0"] (by decide)).1.trans (by decide)

theorem handleOperator_eq_evaluates_witness :
    run ["5", "+", "3"] init =
        some { operand1 := "5", operand2 := "3", operator := "+", result := "",
               context := "5+3" } ∧
      handleOperator "="
          { operand1 := "5", operand2 := "3", operator := "+", result := "",
            context := "5+3" } =
        some { operand1 := "8", operand2 := "", operator := "", result := "8",
               context := "8" } :=
  ⟨by decide,
   (handleOperator_eq_evaluates
      { operand1 := "5", operand2 := "3", operator := "+", result := "", context := "5+3" }
      (by decide) (by decide) (by decide) (by decide) (by decide) (by decide)
      (by decide)).trans (by decide)⟩

/-! ## Division by zero and deletion -/

theorem parseFloat_zero (x : String) (h : isDigits x.data = true)
    (hz : decimalValue x.data = 0) : parseFloat x = some 0 := by
  obtain ⟨h1, h2, _⟩ := digits_isDecimalInteger x h
  have := parseFloat_eq x h1 (by rw [h2, hz]; decide)
  rw [this, h2, hz]
  rfl

theorem performCalculation_div_zero (s : State) (hop : s.operator = "/")
    (h2 : isDigits s.operand2.data = true) (hz : decimalValue s.operand2.data = 0) :
    performCalculation s =
      some { s with operand1 := "", operand2 := "", operator := "", context := "Error" } := by
  simp [performCalculation, parseFloat_zero _ h2 hz, calculate, hop, CalcResult.toString]

/-- C3. Division by zero on `=`: when `operand1` is a non-empty digit string,
the operator is `/` and `operand2` is a non-empty digit string of value zero,
`handleOperator "="` leaves the display `"Error"` and `operand1`, `operand2`
and `operator` empty (`result` keeps its value). -/
theorem handleOperator_eq_div_zero (s : State) (h1 : isDigits s.operand1.data = true)
    (hop : s.operator = "/") (h2 : isDigits s.operand2.data = true)
    (hz : decimalValue s.operand2.data = 0) :
    handleOperator "=" s =
      some { operand1 := "", operand2 := "", operator := "", result := s.result,
             context := "Error" } := by
  have t1 := (digits_isDecimalInteger _ h1).2.2
  have t2 := (digits_isDecimalInteger _ h2).2.2
  have t3 : truthy s.operator = true := by rw [hop]; decide
  simp [handleOperator, t1, t2, t3, performCalculation_div_zero s hop h2 hz]

theorem handleOperator_eq_div_zero_witness :
    run ["9", "/", "0"] init =
        some { operand1 := "9", operand2 := "0", operator := "/", result := "",
               context := "9/0" } ∧
      handleOperator "="
          { operand1 := "9", operand2 := "0", operator := "/", result := "",
            context := "9/0" } =
        some { operand1 := "", operand2 := "", operator := "", result := "",
               context := "Error" } :=
  ⟨by decide,
   handleOperator_eq_div_zero
      { operand1 := "9", operand2 := "0", operator := "/", result := "", context := "9/0" }
      (by decide) (by decide) (by decide) (by decide)⟩

theorem handleOperator_chain_div_zero (op : String) (s : State) (h1 : s.operand1 ≠ "")
    (hop : s.operator = "/") (h2 : isDigits s.operand2.data = true)
    (hz : decimalValue s.operand2.data = 0) (hne : op ≠ "=") :
    handleOperator op s =
      some { operand1 := "", operand2 := "", operator := op, result := s.result,
             context := s.result ++ op } := by
  have t1 : truthy s.operand1 = true := (truthy_iff _).mpr h1
  have t2 := (digits_isDecimalInteger _ h2).2.2
  have t3 : truthy s.operator = true := by rw [hop]; decide
  simp [handleOperator, t1, t2, t3, hne, performCalculation_div_zero s hop h2 hz]

/-- C4. A chaining operator on a pending division by zero: after the tokens
`9`, `/`, `0`, `+` the display is `"+"`, not `"Error"`, and the operator field
holds `"+"`.  In general, with `operand1` non-empty, operator `/` and `operand2`
a digit string of value zero, `handleOperator op` for `op` among `+ - * /`
empties both operands, stores `op` as the operator and sets the display to the
old `result` followed by `op`: the error left by `performCalculation` is
overwritten. -/
theorem chained_div_zero_not_error :
    run ["9", "/", "0", "+"] init =
        some { operand1 := "", operand2 := "", operator := "+", result := "",
               context := "+" } ∧
      (∀ (s : State) (op : String), s.operand1 ≠ "" → s.operator = "/" →
        isDigits s.operand2.data = true → decimalValue s.operand2.data = 0 →
        op ∈ ["+", "-", "*", "/"] →
        handleOperator op s =
          some { operand1 := "", operand2 := "", operator := op, result := s.result,
                 context := s.result ++ op }) := by
  refine ⟨by decide, ?_⟩
  intro s op h1 hop h2 hz hmem
  refine handleOperator_chain_div_zero op s h1 hop h2 hz ?_
  intro he
  rw [he] at hmem
  simp at hmem

theorem slice0m1_ne (x : String) (h : x ≠ "") : slice0m1 x ≠ x := by
  intro he
  have hl : (slice0m1 x).data.length = x.data.length := by rw [he]
  simp only [slice0m1, List.length_dropLast] at hl
  have : x.data ≠ [] := by
    intro hd
    apply h
    exact String.ext hd
  have := List.length_pos.mpr this
  omega

theorem append_ne (x d : String) (h : d ≠ "") : x ++ d ≠ x := by
  intro he
  have hl : (x ++ d).data.length = x.data.length := by rw [he]
  simp only [String.data_append, List.length_append] at hl
  have : d.data ≠ [] := by
    intro hd
    apply h
    exact String.ext hd
  have := List.length_pos.mpr this
  omega

/-- C5. The function `handleDelete` acts on one field, in priority order: a non-empty
`operand2` loses its last character; otherwise a non-empty `operator` becomes
empty; otherwise `operand1` loses its last character (an empty one stays
empty).  The two other fields and `result` keep their values, and the display
becomes `operand1 + operator + operand2` of the new state. -/
theorem handleDelete_priority (s : State) :
    (s.operand2 ≠ "" →
      (handleDelete s).operand2.data = s.operand2.data.dropLast ∧
      (handleDelete s).operand1 = s.operand1 ∧ (handleDelete s).operator = s.operator) ∧
    (s.operand2 = "" → s.operator ≠ "" →
      (handleDelete s).operator = "" ∧
      (handleDelete s).operand1 = s.operand1 ∧ (handleDelete s).operand2 = s.operand2) ∧
    (s.operand2 = "" → s.operator = "" →
      (handleDelete s).operand1.data = s.operand1.data.dropLast ∧
      (s.operand1 = "" → (handleDelete s).operand1 = "") ∧
      (handleDelete s).operator = s.operator ∧ (handleDelete s).operand2 = s.operand2) ∧
    (handleDelete s).result = s.result ∧
    (handleDelete s).context =
      (handleDelete s).operand1 ++ (handleDelete s).operator ++ (handleDelete s).operand2 := by
  refine ⟨?_, ?_, ?_, ?_, ?_⟩
  · intro h
    simp [handleDelete, truthy, h, slice0m1]
  · intro h2 ho
    simp [handleDelete, truthy, h2, ho]
  · intro h2 ho
    by_cases h1 : s.operand1 = ""
    · simp [handleDelete, truthy, h2, ho, h1]
    · simp [handleDelete, truthy, h2, ho, h1, slice0m1]
  · simp only [handleDelete]
    split_ifs <;> rfl
  · simp only [handleDelete]

theorem handleDelete_priority_witness :
    handleDelete { operand1 := "12", operand2 := "3", operator := "+", result := "",
                   context := "12+3" } =
        { operand1 := "12", operand2 := "", operator := "+", result := "",
          context := "12+" } ∧
      handleDelete { operand1 := "12", operand2 := "", operator := "+", result := "",
                     context := "12+" } =
        { operand1 := "12", operand2 := "", operator := "", result := "", context := "12" } ∧
      handleDelete { operand1 := "12", operand2 := "", operator := "", result := "",
                     context := "12" } =
        { operand1 := "1", operand2 := "", operator := "", result := "", context := "1" } ∧
      (handleDelete { operand1 := "12", operand2 := "3", operator := "+", result := "",
                      context := "12+3" }).operand2.data = ("3" : String).data.dropLast :=
  ⟨by decide, by decide, by decide,
   ((handleDelete_priority
      { operand1 := "12", operand2 := "3", operator := "+", result := "",
        context := "12+3" }).1 (by decide)).1⟩

/-! ## Token sequences -/

theorem concat_map_singleton (cs : List Char) :
    concat (cs.map String.singleton) = ⟨cs⟩ := by
  induction cs with
  | nil => rfl
  | cons c cs ih =>
    rw [List.map_cons, concat_cons, ih]
    apply String.ext
    simp [String.data_append, String.singleton]

theorem concat_tokens (x : String) : concat (tokens x) = x :=
  concat_map_singleton x.data

theorem isDigit_singleton (c : Char) (h : c.isDigit = true) :
    String.singleton c ∈ digitValues := by
  have hb : 48 ≤ c.toNat ∧ c.toNat ≤ 57 := by
    simp only [Char.isDigit, Bool.and_eq_true, decide_eq_true_eq] at h
    exact ⟨h.1, h.2⟩
  obtain ⟨n, hn⟩ : ∃ n, c.toNat = n := ⟨_, rfl⟩
  have hc : c = Char.ofNat n := by rw [← hn, Char.ofNat_toNat]
  rw [hn] at hb
  subst hc
  obtain ⟨h1, h2⟩ := hb
  interval_cases n <;> decide

theorem tokens_digits (x : String) (h : isDigits x.data = true) :
    ∀ d ∈ tokens x, d ∈ digitValues := by
  intro d hd
  simp only [tokens, List.mem_map] at hd
  obtain ⟨c, hc, rfl⟩ := hd
  simp only [isDigits, Bool.and_eq_true, List.all_eq_true] at h
  exact isDigit_singleton c (h.2 c hc)

theorem run_append (xs ys : List String) : ∀ s : State,
    run (xs ++ ys) s = (run xs s).bind (run ys) := by
  induction xs with
  | nil => intro s; rfl
  | cons x xs ih =>
    intro s
    simp only [List.cons_append, run]
    cases press x s with
    | none => rfl
    | some s1 => exact ih s1

theorem run_tokens (x : String) (h : isDigits x.data = true) (s : State) :
    run (tokens x) s =
      some (if s.operator = "" then
              { s with operand1 := s.operand1 ++ x, context := s.context ++ x }
            else { s with operand2 := s.operand2 ++ x, context := s.context ++ x }) := by
  rw [run_digits _ (tokens_digits x h)]
  by_cases ho : s.operator = ""
  · rw [foldl_handleNumber_operand1 _ _ ho, concat_tokens, if_pos ho]
  · rw [foldl_handleNumber_operand2 _ _ ho, concat_tokens, if_neg ho]

theorem press_operator (op : String) (h : op ∈ ["+", "-", "*", "/", "="]) (s : State) :
    press op s = handleOperator op s := by
  simp only [List.mem_cons, List.mem_singleton, List.not_mem_nil, or_false] at h
  rcases h with h | h | h | h | h <;> subst h <;> simp [press, buttonValues, digitValues]

theorem handleOperator_overwrite (op : String) (s : State)
    (h : s.operator = "" ∨ s.operand2 = "") :
    handleOperator op s = some { s with operator := op, context := s.context ++ op } := by
  rcases h with h | h
  · simp [handleOperator, truthy, h]
  · by_cases ho : s.operator = ""
    · simp [handleOperator, truthy, ho]
    · simp [handleOperator, truthy, h, ho]

theorem handleOperator_record (op : String) (s : State) (h : s.operator = "") :
    handleOperator op s = some { s with operator := op, context := s.context ++ op } :=
  handleOperator_overwrite op s (Or.inl h)

theorem run_operand_two_operators (a op1 op2 : String) (ha : isDigits a.data = true)
    (hop1 : op1 ∈ ["+", "-", "*", "/"]) (hop2 : op2 ∈ ["+", "-", "*", "/"]) :
    run (tokens a ++ [op1, op2]) init =
      some { operand1 := a, operand2 := "", operator := op2, result := "",
             context := a ++ op1 ++ op2 } := by
  have h15 : op1 ∈ ["+", "-", "*", "/", "="] := by
    simp only [List.mem_cons, List.mem_singleton, List.not_mem_nil, or_false] at hop1 ⊢
    tauto
  have h25 : op2 ∈ ["+", "-", "*", "/", "="] := by
    simp only [List.mem_cons, List.mem_singleton, List.not_mem_nil, or_false] at hop2 ⊢
    tauto
  rw [run_append, run_tokens a ha]
  simp only [init, if_true, Option.some_bind, run, String.empty_append]
  rw [press_operator op1 h15, handleOperator_overwrite op1 _ (Or.inl rfl)]
  simp only [Option.some_bind]
  rw [press_operator op2 h25, handleOperator_overwrite op2 _ (Or.inr rfl)]
  rfl

theorem handleOperator_chain (op : String) (s : State) (hne : op ≠ "=")
    (h1 : isDecimalInteger s.operand1 = true) (h2 : isDigits s.operand2.data = true)
    (hop : s.operator ∈ ["+", "-", "*", "/"])
    (hdiv : s.operator = "/" →
      integerValue s.operand2 ≠ 0 ∧ integerValue s.operand2 ∣ integerValue s.operand1)
    (hb1 : (integerValue s.operand1).natAbs < 2 ^ 53)
    (hb2 : (integerValue s.operand2).natAbs < 2 ^ 53)
    (hr : (applyOp s.operator (integerValue s.operand1) (integerValue s.operand2)).natAbs
      < 2 ^ 53) :
    handleOperator op s =
      some { operand1 := numberToString
               (applyOp s.operator (integerValue s.operand1) (integerValue s.operand2)),
             operand2 := "", operator := op,
             result := numberToString
               (applyOp s.operator (integerValue s.operand1) (integerValue s.operand2)),
             context := numberToString
               (applyOp s.operator (integerValue s.operand1) (integerValue s.operand2))
               ++ op } := by
  have t1 : truthy s.operand1 = true := by
    rw [truthy_iff]
    intro he
    rw [he] at h1
    simp [isDecimalInteger, isDigits] at h1
  have t2 := (digits_isDecimalInteger _ h2).2.2
  have t3 : truthy s.operator = true := by
    rw [truthy_iff]
    intro he
    rw [he] at hop
    simp at hop
  simp [handleOperator, t1, t2, t3, hne, performCalculation_ok s h1 h2 hop hdiv hb1 hb2 hr]

theorem run_operand_operator_operand (a b op : String) (ha : isDigits a.data = true)
    (hb : isDigits b.data = true) (hop : op ∈ ["+", "-", "*"]) :
    run (tokens a ++ [op] ++ tokens b) init =
      some { operand1 := a, operand2 := b, operator := op, result := "",
             context := a ++ op ++ b } := by
  have hop5 : op ∈ ["+", "-", "*", "/", "="] := by
    simp only [List.mem_cons, List.mem_singleton, List.not_mem_nil, or_false] at hop ⊢
    tauto
  have hne : op ≠ "" := by
    intro he
    rw [he] at hop
    simp at hop
  rw [run_append, run_append, run_tokens a ha]
  simp only [init, if_true, Option.some_bind, run, String.empty_append]
  rw [press_operator op hop5, handleOperator_record op _ rfl]
  simp only [Option.some_bind]
  rw [run_tokens b hb]
  simp [hne]

theorem run_operand_after_result (r c op : String) (hc : isDigits c.data = true)
    (hop : op ∈ ["+", "-", "*"]) (hr : isDecimalInteger r = true)
    (hbr : (integerValue r).natAbs < 2 ^ 53) (hbc : (integerValue c).natAbs < 2 ^ 53)
    (hres : (applyOp op (integerValue r) (integerValue c)).natAbs < 2 ^ 53) :
    run (tokens c ++ ["="])
        { operand1 := r, operand2 := "", operator := op, result := r, context := r ++ op } =
      some { operand1 := numberToString (applyOp op (integerValue r) (integerValue c)),
             operand2 := "", operator := "",
             result := numberToString (applyOp op (integerValue r) (integerValue c)),
             context := numberToString (applyOp op (integerValue r) (integerValue c)) } := by
  have hne : op ≠ "" := by
    intro he
    rw [he] at hop
    simp at hop
  have hop4 : op ∈ ["+", "-", "*", "/"] := by
    simp only [List.mem_cons, List.mem_singleton, List.not_mem_nil, or_false] at hop ⊢
    tauto
  have hnd : op = "/" → integerValue c ≠ 0 ∧ integerValue c ∣ integerValue r := by
    intro he
    rw [he] at hop
    simp at hop
  rw [run_append, run_tokens c hc]
  simp only [hne, if_false, Option.some_bind, run, String.empty_append]
  rw [press_operator "=" (by decide)]
  simp only [Option.bind_eq_bind, Option.bind_some]
  rw [handleOperator_equals_tracked _ hr hc hop4 hnd hbr hbc hres]

/-- C2. Strict left-to-right chaining: for digit strings `a`, `b`, `c` and
operators `op1`, `op2` among `+ - *`, with the operands and both results below
`2^53` in magnitude, the token sequences `a op1 b op2 c =` and
`a op1 b = op2 c =` from the initial state both end with `operand1`, `result`
and the display equal to the numeral of `(a op1 b) op2 c` and with `operand2`
and `operator` empty; right after the `op2` press of the first sequence
`operand1` and `result` are the numeral of `a op1 b`, `operator` is `op2`,
`operand2` is empty and the display is that numeral followed by `op2`. -/
theorem left_to_right_chaining (a b c op1 op2 : String)
    (ha : isDigits a.data = true) (hb : isDigits b.data = true)
    (hc : isDigits c.data = true)
    (hop1 : op1 ∈ ["+", "-", "*"]) (hop2 : op2 ∈ ["+", "-", "*"])
    (hba : (integerValue a).natAbs < 2 ^ 53) (hbb : (integerValue b).natAbs < 2 ^ 53)
    (hbc : (integerValue c).natAbs < 2 ^ 53)
    (hr1 : (applyOp op1 (integerValue a) (integerValue b)).natAbs < 2 ^ 53)
    (hr2 : (applyOp op2 (applyOp op1 (integerValue a) (integerValue b))
      (integerValue c)).natAbs < 2 ^ 53) :
    run (tokens a ++ [op1] ++ tokens b ++ [op2] ++ tokens c ++ ["="]) init =
        some { operand1 := numberToString (applyOp op2
                 (applyOp op1 (integerValue a) (integerValue b)) (integerValue c)),
               operand2 := "", operator := "",
               result := numberToString (applyOp op2
                 (applyOp op1 (integerValue a) (integerValue b)) (integerValue c)),
               context := numberToString (applyOp op2
                 (applyOp op1 (integerValue a) (integerValue b)) (integerValue c)) } ∧
      run (tokens a ++ [op1] ++ tokens b ++ ["="] ++ [op2] ++ tokens c ++ ["="]) init =
        some { operand1 := numberToString (applyOp op2
                 (applyOp op1 (integerValue a) (integerValue b)) (integerValue c)),
               operand2 := "", operator := "",
               result := numberToString (applyOp op2
                 (applyOp op1 (integerValue a) (integerValue b)) (integerValue c)),
               context := numberToString (applyOp op2
                 (applyOp op1 (integerValue a) (integerValue b)) (integerValue c)) } ∧
      run (tokens a ++ [op1] ++ tokens b ++ [op2]) init =
        some { operand1 := numberToString (applyOp op1 (integerValue a) (integerValue b)),
               operand2 := "", operator := op2,
               result := numberToString (applyOp op1 (integerValue a) (integerValue b)),
               context :=
                 numberToString (applyOp op1 (integerValue a) (integerValue b)) ++ op2 } := by
  have hop14 : op1 ∈ ["+", "-", "*", "/"] := by
    simp only [List.mem_cons, List.mem_singleton, List.not_mem_nil, or_false] at hop1 ⊢
    tauto
  have hop25 : op2 ∈ ["+", "-", "*", "/", "="] := by
    simp only [List.mem_cons, List.mem_singleton, List.not_mem_nil, or_false] at hop2 ⊢
    tauto
  have hne2 : op2 ≠ "=" := by
    intro he
    rw [he] at hop2
    simp at hop2
  have hnd : op1 = "/" → integerValue b ≠ 0 ∧ integerValue b ∣ integerValue a := by
    intro he
    rw [he] at hop1
    simp at hop1
  have hda := (digits_isDecimalInteger a ha).1
  obtain ⟨hs1, hs2, _⟩ :=
    numberToString_spec (applyOp op1 (integerValue a) (integerValue b))
  have h3 := run_operand_operator_operand a b op1 ha hb hop1
  have h4 : run (tokens a ++ [op1] ++ tokens b ++ [op2]) init =
      some { operand1 := numberToString (applyOp op1 (integerValue a) (integerValue b)),
             operand2 := "", operator := op2,
             result := numberToString (applyOp op1 (integerValue a) (integerValue b)),
             context :=
               numberToString (applyOp op1 (integerValue a) (integerValue b)) ++ op2 } := by
    rw [run_append, h3]
    simp only [Option.some_bind, run]
    rw [press_operator op2 hop25,
      handleOperator_chain op2 _ hne2 hda hb hop14 hnd hba hbb hr1]
    rfl
  have h4e : run (tokens a ++ [op1] ++ tokens b ++ ["="] ++ [op2]) init =
      some { operand1 := numberToString (applyOp op1 (integerValue a) (integerValue b)),
             operand2 := "", operator := op2,
             result := numberToString (applyOp op1 (integerValue a) (integerValue b)),
             context :=
               numberToString (applyOp op1 (integerValue a) (integerValue b)) ++ op2 } := by
    rw [List.append_assoc, run_append, h3]
    simp only [Option.some_bind, run, List.singleton_append]
    rw [press_operator "=" (by decide),
      handleOperator_equals_tracked _ hda hb hop14 hnd hba hbb hr1]
    simp only [Option.some_bind]
    rw [press_operator op2 hop25, handleOperator_record op2 _ rfl]
    rfl
  have h5 := run_operand_after_result
    (numberToString (applyOp op1 (integerValue a) (integerValue b))) c op2 hc hop2 hs1
    (by rw [hs2]; exact hr1) hbc (by rw [hs2]; exact hr2)
  rw [hs2] at h5
  refine ⟨?_, ?_, h4⟩
  · rw [List.append_assoc _ (tokens c), run_append, h4]
    exact h5
  · rw [List.append_assoc _ (tokens c), run_append, h4e]
    exact h5

/-! ## Scenarios and dead keys -/
theorem left_to_right_chaining_witness :
    run ["2", "+", "3", "*", "4", "="] init =
        some { operand1 := "20", operand2 := "", operator := "", result := "20",
               context := "20" } ∧
      run ["5", "+", "3", "=", "*", "2", "="] init =
        some { operand1 := "16", operand2 := "", operator := "", result := "16",
               context := "16" } ∧
      run ["5", "+", "3", "*"] init =
        some { operand1 := "8", operand2 := "", operator := "*", result := "8",
               context := "8*" } :=
  ⟨(left_to_right_chaining "2" "3" "4" "+" "*" (by decide) (by decide) (by decide)
      (by decide) (by decide) (by decide) (by decide) (by decide) (by decide)
      (by decide)).1.trans (by decide),
   (left_to_right_chaining "5" "3" "2" "+" "*" (by decide) (by decide) (by decide)
      (by decide) (by decide) (by decide) (by decide) (by decide) (by decide)
      (by decide)).2.1.trans (by decide),
   (left_to_right_chaining "5" "3" "2" "+" "*" (by decide) (by decide) (by decide)
      (by decide) (by decide) (by decide) (by decide) (by decide) (by decide)
      (by decide)).2.2.trans (by decide)⟩

/-- C6. A second `=` after a completed calculation is not a no-op: after the
tokens `5`, `+`, `3`, `=`, `=` the operator field holds `"="` and the display
is `"8="`, so the state differs from the one after the first `=`.  In general,
whenever `operator` or `operand2` is empty, `handleOperator "="` stores `"="`
as the operator and appends it to the display. -/
theorem second_equals_mutates :
    run ["5", "+", "3", "="] init =
        some { operand1 := "8", operand2 := "", operator := "", result := "8",
               context := "8" } ∧
      run ["5", "+", "3", "=", "="] init =
        some { operand1 := "8", operand2 := "", operator := "=", result := "8",
               context := "8=" } ∧
      handleOperator "="
          { operand1 := "8", operand2 := "", operator := "", result := "8",
            context := "8" } ≠
        some { operand1 := "8", operand2 := "", operator := "", result := "8",
               context := "8" } ∧
      (∀ s : State, s.operator = "" ∨ s.operand2 = "" →
        handleOperator "=" s =
          some { operand1 := s.operand1, operand2 := s.operand2, operator := "=",
                 result := s.result, context := s.context ++ "=" }) :=
  ⟨by decide, by decide, by decide, fun s h => handleOperator_overwrite "=" s h⟩

/-- C7. After a division by zero the display is not rebuilt by `handleNumber`:
the tokens `9`, `/`, `0`, `=` reach a state with display `"Error"` and empty
fields, and `handleNumber "5"` there gives display `"Error5"` while `operand1`
is `"5"` and `operator`, `operand2` are empty. -/
theorem handleNumber_after_error :
    Reachable { operand1 := "", operand2 := "", operator := "", result := "",
                context := "Error" } ∧
      handleNumber "5" { operand1 := "", operand2 := "", operator := "", result := "",
                         context := "Error" } =
        { operand1 := "5", operand2 := "", operator := "", result := "",
          context := "Error5" } ∧
      run ["9", "/", "0", "=", "5"] init =
        some { operand1 := "5", operand2 := "", operator := "", result := "",
               context := "Error5" } ∧
      ("Error5" : String) ≠ "5" ++ "" ++ "" :=
  ⟨⟨["9", "/", "0", "="], by decide, by decide⟩, by decide, by decide, by decide⟩

/-- C9. Replacing the pending operator appends to the display: after the
tokens `5`, `+`, `-` the operator field is `"-"`, `operand1` is `"5"`,
`operand2` and `result` are empty, and the display is `"5+-"`, not `"5-"`.
In general, for a digit string `a` and `op1`, `op2` among `+ - * /`, the
tokens `a`, `op1`, `op2` from the initial state end with `operand1 = a`,
`operator = op2`, `operand2` and `result` empty, and display `a ++ op1 ++ op2`. -/
theorem operator_overwrite_display :
    run ["5", "+", "-"] init =
        some { operand1 := "5", operand2 := "", operator := "-", result := "",
               context := "5+-" } ∧
      ("5+-" : String) ≠ "5" ++ "-" ++ "" ∧
      (∀ a op1 op2 : String, isDigits a.data = true →
        op1 ∈ ["+", "-", "*", "/"] → op2 ∈ ["+", "-", "*", "/"] →
        run (tokens a ++ [op1, op2]) init =
          some { operand1 := a, operand2 := "", operator := op2, result := "",
                 context := a ++ op1 ++ op2 }) :=
  ⟨by decide, by decide, fun a op1 op2 ha h1 h2 => run_operand_two_operators a op1 op2 ha h1 h2⟩

/-- C10. Operator keys are dead when the first operand is missing: in a state
with `operand1` empty and `operator`, `operand2` non-empty, `handleOperator`
returns the state unchanged for each of `+ - * / =`; such a state is reached
from the initial state by the tokens `+`, `3`; and among the button values
exactly the ten digits and `DEL` change such a state. -/
theorem operator_dead_without_operand1 :
    (∀ (s : State) (op : String), s.operand1 = "" → s.operator ≠ "" → s.operand2 ≠ "" →
      op ∈ ["+", "-", "*", "/", "="] → handleOperator op s = some s) ∧
    (Reachable { operand1 := "", operand2 := "3", operator := "+", result := "",
                 context := "+3" } ∧
      run ["+", "3"] init =
        some { operand1 := "", operand2 := "3", operator := "+", result := "",
               context := "+3" }) ∧
    (∀ (s : State) (v : String), s.operand1 = "" → s.operator ≠ "" → s.operand2 ≠ "" →
      v ∈ buttonValues → (press v s ≠ some s ↔ v = "DEL" ∨ v ∈ digitValues)) := by
  have dead : ∀ (s : State) (op : String), s.operand1 = "" → s.operator ≠ "" →
      s.operand2 ≠ "" → handleOperator op s = some s := by
    intro s op h1 ho h2
    simp [handleOperator, truthy, h1, ho, h2]
  refine ⟨fun s op h1 ho h2 _ => dead s op h1 ho h2,
    ⟨⟨["+", "3"], by decide, by decide⟩, by decide⟩, ?_⟩
  intro s v h1 ho h2 hv
  by_cases hdel : v = "DEL"
  · subst hdel
    have hne : handleDelete s ≠ s := by
      intro he
      have h := congrArg State.operand2 he
      simp only [handleDelete, truthy, bne_iff_ne, ne_eq, h2, not_false_eq_true,
        if_true] at h
      exact slice0m1_ne _ h2 h
    simp [press, buttonValues, hne]
  · by_cases hdig : v ∈ digitValues
    · have hne : handleNumber v s ≠ s := by
        intro he
        have h := congrArg State.operand2 he
        simp only [handleNumber, truthy, bne_iff_ne, ne_eq, ho, not_false_eq_true,
          if_true] at h
        refine append_ne _ v ?_ h
        intro hv0
        rw [hv0] at hdig
        simp [digitValues] at hdig
      rw [digitValues_press v hdig]
      simp [hdel, hdig, hne]
    · have hop : press v s = handleOperator v s := by
        simp [press, hv, hdel, hdig]
      rw [hop, dead s v h1 ho h2]
      simp [hdel, hdig]

theorem operator_dead_without_operand1_witness :
    handleOperator "*"
        { operand1 := "", operand2 := "3", operator := "+", result := "", context := "+3" } =
      some { operand1 := "", operand2 := "3", operator := "+", result := "",
             context := "+3" } :=
  operator_dead_without_operand1.1
    { operand1 := "", operand2 := "3", operator := "+", result := "", context := "+3" }
    "*" (by decide) (by decide) (by decide) (by decide)

end Calculator
